import Mathlib

/-!
Verification development for the `extend_schema` override mechanism and the
`PolymorphicProxySerializer` declaration of `drf_spectacular/utils.py`.

The source attaches, per decorator invocation, one `ExtendedSchema` subclass of
whatever schema class was already attached at the site (or the configured
default).  Each subclass captures the decorator's keyword arguments in a
closure and overrides the per-field getters; an undecided getter delegates to
`super()`, i.e. to the next inner layer, and ultimately to the base
introspection engine.  We embed a chain of such subclasses as a
`List ExtendArgs` (head = outermost layer) over a `BaseIntrospection` record.

Python values carried by the keyword arguments are embedded as `PyVal`, with
Python truthiness (`if description and ...`) made explicit by `PyVal.truthy`.
-/

set_option autoImplicit false

namespace DrfSpectacular

/-- Embedding of the Python values that flow through the decorator arguments:
strings, lists, booleans, dicts, and opaque class instances (serializers,
which are always truthy in Python). -/
inductive PyVal where
  | str (s : String)
  | list (l : List PyVal)
  | bool (b : Bool)
  | dict (entries : List (String × PyVal))
  | obj (name : String)

/-- Python truthiness of an embedded value: empty string, empty list, `False`
and empty dict are falsy; class instances are truthy. -/
def PyVal.truthy : PyVal → Bool
  | .str s => s ≠ ""
  | .list l => !l.isEmpty
  | .bool b => b
  | .dict entries => !entries.isEmpty
  | .obj _ => true

/-- Truthiness of an optional argument whose Python default is `None`
(`None` is falsy). -/
def truthyOpt : Option PyVal → Bool
  | none => false
  | some v => v.truthy

/-- The keyword arguments of one `extend_schema(...)` invocation, i.e. the
data captured by one `ExtendedSchema` closure (one override layer).  Defaults
mirror the Python signature: every override defaults to `None`
(`exclude=False`). -/
structure ExtendArgs where
  operation_id : Option PyVal := none
  parameters : Option PyVal := none
  request : Option PyVal := none
  responses : Option PyVal := none
  auth : Option PyVal := none
  description : Option PyVal := none
  deprecated : Option PyVal := none
  tags : Option PyVal := none
  exclude : Bool := false
  operation : Option PyVal := none
  methods : Option (List String) := none
  versions : Option (List String) := none

/-- The base introspection engine (an external collaborator, `AutoSchema` in
the real project).  Per the interface contract it exposes a best-effort
discovered value for every field and never fails. -/
structure BaseIntrospection where
  operation_id : PyVal
  parameters : PyVal
  request : PyVal
  responses : PyVal
  auth : PyVal
  description : PyVal
  deprecated : PyVal
  tags : PyVal

/-- One resolution context: the HTTP method stored on the schema instance by
`get_operation`, and the request the view holds, which the version
negotiation collaborator (`view.determine_version`) maps to a version at
resolution time. -/
structure Ctx where
  method : String
  request : Nat

/-- Embeds the closure `is_in_scope(ext_schema)`: the version is obtained by
calling the version-negotiation collaborator `neg` on the view's request at
every evaluation; `None` restrictions (the defaults) match everything. -/
def is_in_scope (methods versions : Option (List String)) (neg : Nat → String)
    (ctx : Ctx) : Bool :=
  let version := neg ctx.request
  let version_scope := match versions with
    | none => true
    | some vs => version ∈ vs
  let method_scope := match methods with
    | none => true
    | some ms => ctx.method ∈ ms
  method_scope && version_scope

/-- `ExtendedSchema.get_operation_id`: `if operation_id and is_in_scope(self):
return operation_id` else delegate to `super()`. -/
def get_operation_id (neg : Nat → String) (ctx : Ctx) (base : BaseIntrospection) :
    List ExtendArgs → PyVal
  | [] => base.operation_id
  | a :: rest =>
    if truthyOpt a.operation_id && is_in_scope a.methods a.versions neg ctx then
      a.operation_id.getD (.str "")
    else
      get_operation_id neg ctx base rest

/-- `ExtendedSchema.get_override_parameters`: `if parameters and
is_in_scope(self): return parameters` else delegate to `super()`. -/
def get_override_parameters (neg : Nat → String) (ctx : Ctx) (base : BaseIntrospection) :
    List ExtendArgs → PyVal
  | [] => base.parameters
  | a :: rest =>
    if truthyOpt a.parameters && is_in_scope a.methods a.versions neg ctx then
      a.parameters.getD (.str "")
    else
      get_override_parameters neg ctx base rest

/-- `ExtendedSchema.get_auth`: `if auth and is_in_scope(self): return auth`
else delegate to `super()`. -/
def get_auth (neg : Nat → String) (ctx : Ctx) (base : BaseIntrospection) :
    List ExtendArgs → PyVal
  | [] => base.auth
  | a :: rest =>
    if truthyOpt a.auth && is_in_scope a.methods a.versions neg ctx then
      a.auth.getD (.str "")
    else
      get_auth neg ctx base rest

/-- `ExtendedSchema.get_request_serializer`: `if request and is_in_scope(self):
return request` else delegate to `super()`. -/
def get_request_serializer (neg : Nat → String) (ctx : Ctx) (base : BaseIntrospection) :
    List ExtendArgs → PyVal
  | [] => base.request
  | a :: rest =>
    if truthyOpt a.request && is_in_scope a.methods a.versions neg ctx then
      a.request.getD (.str "")
    else
      get_request_serializer neg ctx base rest

/-- `ExtendedSchema.get_response_serializers`: `if responses and
is_in_scope(self): return responses` else delegate to `super()`. -/
def get_response_serializers (neg : Nat → String) (ctx : Ctx) (base : BaseIntrospection) :
    List ExtendArgs → PyVal
  | [] => base.responses
  | a :: rest =>
    if truthyOpt a.responses && is_in_scope a.methods a.versions neg ctx then
      a.responses.getD (.str "")
    else
      get_response_serializers neg ctx base rest

/-- `ExtendedSchema.get_description`: `if description and is_in_scope(self):
return description` else delegate to `super()`. -/
def get_description (neg : Nat → String) (ctx : Ctx) (base : BaseIntrospection) :
    List ExtendArgs → PyVal
  | [] => base.description
  | a :: rest =>
    if truthyOpt a.description && is_in_scope a.methods a.versions neg ctx then
      a.description.getD (.str "")
    else
      get_description neg ctx base rest

/-- `ExtendedSchema.is_deprecated`: `if deprecated and is_in_scope(self):
return deprecated` else delegate to `super()`. -/
def is_deprecated (neg : Nat → String) (ctx : Ctx) (base : BaseIntrospection) :
    List ExtendArgs → PyVal
  | [] => base.deprecated
  | a :: rest =>
    if truthyOpt a.deprecated && is_in_scope a.methods a.versions neg ctx then
      a.deprecated.getD (.str "")
    else
      is_deprecated neg ctx base rest

/-- `ExtendedSchema.get_tags`: `if tags is not None and is_in_scope(self):
return tags` else delegate to `super()`.  Unlike every other getter this one
tests `is not None`, not truthiness. -/
def get_tags (neg : Nat → String) (ctx : Ctx) (base : BaseIntrospection) :
    List ExtendArgs → PyVal
  | [] => base.tags
  | a :: rest =>
    if a.tags.isSome && is_in_scope a.methods a.versions neg ctx then
      a.tags.getD (.list [])
    else
      get_tags neg ctx base rest

/-- The fully resolved description the generator obtains for a non-excluded,
non-raw-overridden operation: the base introspection engine assembles it by
calling the (dynamically dispatched, hence outermost) field getters. -/
structure ResolvedOperation where
  operation_id : PyVal
  parameters : PyVal
  request : PyVal
  responses : PyVal
  auth : PyVal
  description : PyVal
  deprecated : PyVal
  tags : PyVal

/-- Field-by-field assembly of the resolved description, each field resolved
through the full layer chain via dynamic dispatch. -/
def resolve_fields (neg : Nat → String) (ctx : Ctx) (base : BaseIntrospection)
    (chain : List ExtendArgs) : ResolvedOperation where
  operation_id := get_operation_id neg ctx base chain
  parameters := get_override_parameters neg ctx base chain
  request := get_request_serializer neg ctx base chain
  responses := get_response_serializers neg ctx base chain
  auth := get_auth neg ctx base chain
  description := get_description neg ctx base chain
  deprecated := is_deprecated neg ctx base chain
  tags := get_tags neg ctx base chain

/-- Result of `get_operation`: `None` (excluded), the literal `operation`
argument, or the description the base introspection engine assembles. -/
inductive OperationResult where
  | excluded
  | raw (op : PyVal)
  | resolved (op : ResolvedOperation)

/-- The `super().get_operation` delegation chain of
`ExtendedSchema.get_operation`: each layer checks `exclude` then `operation`
(each guarded by `is_in_scope`), and the root base class assembles the
description from the dynamically dispatched getters, which start at the full
(outermost) chain `full`. -/
def get_operation_go (neg : Nat → String) (ctx : Ctx) (base : BaseIntrospection)
    (full : List ExtendArgs) : List ExtendArgs → OperationResult
  | [] => .resolved (resolve_fields neg ctx base full)
  | a :: rest =>
    if a.exclude && is_in_scope a.methods a.versions neg ctx then
      .excluded
    else if a.operation.isSome && is_in_scope a.methods a.versions neg ctx then
      .raw (a.operation.getD (.str ""))
    else
      get_operation_go neg ctx base full rest

/-- `ExtendedSchema.get_operation` on the outermost layer of the chain. -/
def get_operation (neg : Nat → String) (ctx : Ctx) (base : BaseIntrospection)
    (chain : List ExtendArgs) : OperationResult :=
  get_operation_go neg ctx base chain chain

/-- The only mutable state of a schema instance the source touches during
resolution: the `self.method = method` assignment at the top of
`get_operation`. -/
structure InstState where
  method : Option String

/-- One full resolution call `get_operation(path, path_regex, method,
registry)` as state passing over the schema instance: it first overwrites
`self.method` with the `method` argument, then resolves; `is_in_scope` reads
exactly that freshly written method. -/
def get_operation_run (neg : Nat → String) (base : BaseIntrospection)
    (chain : List ExtendArgs) (path_method : String) (request : Nat)
    (_st : InstState) : OperationResult × InstState :=
  let new_st : InstState := { method := some path_method }
  let ctx : Ctx := { method := path_method, request := request }
  (get_operation neg ctx base chain, new_st)

/-- The three attachment shapes `extend_schema`'s decorator distinguishes:
a view class (stores the chain in the `schema` attribute), an
`@api_view`-wrapped callable (stores it in `f.cls.kwargs` and each method's
`kwargs`), and a plain callable / custom action (stores it in `f.kwargs`,
created lazily).  `none` means no chain attached yet, so the base lookup
falls through to the configured default schema class (the empty chain). -/
inductive Site where
  | view_class (schema : Option (List ExtendArgs))
  | api_view (cls_kwargs_schema : Option (List ExtendArgs))
  | action (kwargs_schema : Option (List ExtendArgs))

/-- The `BaseSchema` lookup at the top of the decorator
(`getattr(f, 'schema') or f.kwargs.get('schema') or f.cls.kwargs.get('schema')
or DEFAULT_SCHEMA_CLASS`): each shape stores its chain in exactly one of the
probed locations, absence yields the default (empty chain / pure base
introspection). -/
def site_chain : Site → List ExtendArgs
  | .view_class s => s.getD []
  | .api_view s => s.getD []
  | .action s => s.getD []

/-- The decorator returned by `extend_schema(...)`: builds one new
`ExtendedSchema` layer over the looked-up base and stores it back at the
shape-specific location (`ExtendedView.schema`, `f.cls.kwargs['schema']`, or
`f.kwargs['schema']`). -/
def extend_schema (args : ExtendArgs) : Site → Site
  | .view_class s => .view_class (some (args :: s.getD []))
  | .api_view s => .api_view (some (args :: s.getD []))
  | .action s => .action (some (args :: s.getD []))

/-- The shape (field names) one sub-serializer exposes, as far as the
discriminator check needs it. -/
structure SerializerShape where
  name : String
  fields : List String

/-- `PolymorphicProxySerializer.__init__`: stores the component name, the
sub-serializers and the discriminator field name verbatim. -/
structure PolymorphicProxySerializer where
  component_name : String
  serializers : List SerializerShape
  resource_type_field_name : String

/-- The configuration error of §7 for a variant lacking the discriminator
field, carrying the offending variant label. -/
structure DiscriminatorFieldMissing where
  variant_label : String
  deriving DecidableEq

/-- Modelled from the spec: the resolution/render-time discriminator check is
not under `src/` (only the `PolymorphicProxySerializer.__init__` declaration
is).  Per §4.5/§7, every variant shape must contain a field literally named
after `resource_type_field_name`; a variant lacking it fails with
`DiscriminatorFieldMissing` naming the offending variant label. -/
def check_discriminator (p : PolymorphicProxySerializer) :
    Except DiscriminatorFieldMissing Unit :=
  match p.serializers.find? (fun s => !(s.fields.contains p.resource_type_field_name)) with
  | some s => .error ⟨s.name⟩
  | none => .ok ()

/-- Modelled from the spec: the generation pass collects per-operation errors
(§7 propagation policy) — a failing operation does not abort the others. -/
def generation_pass (ops : List (String × PolymorphicProxySerializer)) :
    List (String × Except DiscriminatorFieldMissing Unit) :=
  ops.map (fun op => (op.1, check_discriminator op.2))

/-! Sample values used to instantiate the theorems below. -/

/-- A sample version-negotiation collaborator. -/
def neg0 : Nat → String := fun _ => "v1"

/-- A sample resolution context. -/
def ctx0 : Ctx := { method := "GET", request := 0 }

/-- A sample base-introspection result. -/
def base0 : BaseIntrospection where
  operation_id := .str "base_op_id"
  parameters := .list []
  request := .obj "BaseRequestSerializer"
  responses := .obj "BaseResponseSerializer"
  auth := .list [.str "basic"]
  description := .str "base docstring"
  deprecated := .bool false
  tags := .list [.str "base"]

/-- A layer declaring only `tags`. -/
def tags_layer (t : PyVal) : ExtendArgs := { tags := some t }

/-- A layer declaring only `description`. -/
def description_layer (d : PyVal) : ExtendArgs := { description := some d }

/-- Layer A of the C3 scenario: `methods={"GET"}`, `tags=["read"]`. -/
def layer_a_read : ExtendArgs :=
  { methods := some ["GET"], tags := some (.list [.str "read"]) }

/-- Layer B of the C3 scenario: unrestricted, `description="legacy"`. -/
def layer_b_legacy : ExtendArgs := { description := some (.str "legacy") }

/-- A layer declaring only a raw `operation` override. -/
def op_layer : ExtendArgs := { operation := some (.str "RAW") }

/-- A layer declaring only `exclude=True`. -/
def ex_layer : ExtendArgs := { exclude := true }

/-- An invocation declaring both a raw `operation` override and a field-level
`operation_id` override. -/
def conflict_args : ExtendArgs :=
  { operation_id := some (.str "custom_id"),
    operation := some (.dict [("summary", .str "raw")]) }

/-- A layer declaring every truthiness-guarded override with a falsy value
(empty string, empty list, empty dict, `False`). -/
def falsy_layer : ExtendArgs where
  operation_id := some (.str "")
  parameters := some (.list [])
  request := some (.str "")
  responses := some (.dict [])
  auth := some (.list [])
  description := some (.str "")
  deprecated := some (.bool false)

/-- A layer declaring only `deprecated=True`. -/
def deprecated_layer : ExtendArgs := { deprecated := some (.bool true) }

/-- The cat/dog polymorphic declaration of the C9 scenario: `DogShape` lacks
the discriminator field `kind`. -/
def catdog : PolymorphicProxySerializer where
  component_name := "Pet"
  serializers := [⟨"cat", ["kind", "meow"]⟩, ⟨"dog", ["bark"]⟩]
  resource_type_field_name := "kind"

/-- A well-formed polymorphic declaration: every variant has the
discriminator field. -/
def okpoly : PolymorphicProxySerializer where
  component_name := "Ok"
  serializers := [⟨"a", ["kind"]⟩]
  resource_type_field_name := "kind"

/-! Helper lemmas shared by the claim theorems. -/

/-- The base-introspection result, seen as a resolved description (what the
empty chain resolves to). -/
def base_resolved (base : BaseIntrospection) : ResolvedOperation where
  operation_id := base.operation_id
  parameters := base.parameters
  request := base.request
  responses := base.responses
  auth := base.auth
  description := base.description
  deprecated := base.deprecated
  tags := base.tags

lemma resolve_fields_out_of_scope (a : ExtendArgs) (chain : List ExtendArgs)
    (neg : Nat → String) (ctx : Ctx) (base : BaseIntrospection)
    (h : is_in_scope a.methods a.versions neg ctx = false) :
    resolve_fields neg ctx base (a :: chain) = resolve_fields neg ctx base chain := by
  simp [resolve_fields, get_operation_id, get_override_parameters, get_auth,
    get_request_serializer, get_response_serializers, get_description,
    is_deprecated, get_tags, h]

lemma get_operation_go_congr (neg : Nat → String) (ctx : Ctx)
    (base : BaseIntrospection) (full full' : List ExtendArgs)
    (h : resolve_fields neg ctx base full = resolve_fields neg ctx base full')
    (l : List ExtendArgs) :
    get_operation_go neg ctx base full l = get_operation_go neg ctx base full' l := by
  induction l with
  | nil => simp [get_operation_go, h]
  | cons a rest ih => simp only [get_operation_go, ih]

/-- The layer an `extend_schema` invocation attaches, for every shape:
exactly one new layer over the previously attached chain. -/
lemma extend_schema_chain (args : ExtendArgs) (site : Site) :
    site_chain (extend_schema args site) = args :: site_chain site := by
  cases site <;> rfl

/-- The predicate deciding whether a layer settles `get_operation` on its
own: it declares `exclude` or a raw `operation` and is in scope. -/
def decides_operation (neg : Nat → String) (ctx : Ctx) (a : ExtendArgs) : Bool :=
  (a.exclude || a.operation.isSome) && is_in_scope a.methods a.versions neg ctx

/-- The outermost layer that settles `get_operation` on its own, if any. -/
def first_decider (neg : Nat → String) (ctx : Ctx) (chain : List ExtendArgs) :
    Option ExtendArgs :=
  chain.find? (decides_operation neg ctx)

lemma get_operation_go_find (neg : Nat → String) (ctx : Ctx)
    (base : BaseIntrospection) (full : List ExtendArgs) (l : List ExtendArgs) :
    get_operation_go neg ctx base full l =
      match l.find? (decides_operation neg ctx) with
      | none => .resolved (resolve_fields neg ctx base full)
      | some a => if a.exclude then .excluded else .raw (a.operation.getD (.str "")) := by
  induction l with
  | nil => rfl
  | cons a rest ih =>
    cases he : a.exclude <;> cases hs : is_in_scope a.methods a.versions neg ctx <;>
      cases ho : a.operation.isSome <;>
        simp [get_operation_go, List.find?, decides_operation, he, hs, ho, ih]

/-! Claim theorems. -/

/-- Claim C1, counterexample: the claim asserts that an in-scope
`excludeFlag` anywhere in the chain short-circuits everything, and that a
raw `operation` override is returned only when no in-scope exclude exists.
In the chain `[op_layer, ex_layer]` the inner layer carries an in-scope
`exclude=True`, yet `get_operation` returns the outer layer's raw operation
override, not the excluded marker. -/
theorem c1_counterexample :
    is_in_scope ex_layer.methods ex_layer.versions neg0 ctx0 = true ∧
    ex_layer.exclude = true ∧
    get_operation neg0 ctx0 base0 [op_layer, ex_layer] = .raw (.str "RAW") ∧
    OperationResult.raw (.str "RAW") ≠ OperationResult.excluded :=
  ⟨rfl, rfl, rfl, fun h => OperationResult.noConfusion h⟩

/-- Claim C1 (amended): `get_operation` walks the layers outermost-first and
the first in-scope layer declaring `exclude` or a raw `operation` override
decides the result — the excluded marker when that layer's `exclude` is set
(checked before its own raw override), otherwise its raw override returned
literally; only when no in-scope layer declares either does resolution fall
through to per-field resolution of the whole chain. -/
theorem c1_amended_first_decider_settles_operation :
    ∀ (neg : Nat → String) (ctx : Ctx) (base : BaseIntrospection)
      (chain : List ExtendArgs),
      get_operation neg ctx base chain =
        match first_decider neg ctx chain with
        | none => .resolved (resolve_fields neg ctx base chain)
        | some a => if a.exclude then .excluded else .raw (a.operation.getD (.str "")) := by
  intro neg ctx base chain
  exact get_operation_go_find neg ctx base chain chain

/-- Claim C2: each description field resolves independently — an in-scope
layer declaring `description` (truthily) supplies it, a layer leaving it
undeclared defers to the inner chain, and stacking an outer tags-only layer
over an inner description-only layer merges the two over the base
introspection result. -/
theorem c2_field_independent_merge :
    (∀ (a : ExtendArgs) (rest : List ExtendArgs) (neg : Nat → String) (ctx : Ctx)
        (base : BaseIntrospection) (dv : PyVal),
      a.description = some dv → dv.truthy = true →
      is_in_scope a.methods a.versions neg ctx = true →
      get_description neg ctx base (a :: rest) = dv) ∧
    (∀ (a : ExtendArgs) (rest : List ExtendArgs) (neg : Nat → String) (ctx : Ctx)
        (base : BaseIntrospection),
      a.description = none →
      get_description neg ctx base (a :: rest) = get_description neg ctx base rest) ∧
    (∀ (t d : PyVal) (neg : Nat → String) (ctx : Ctx) (base : BaseIntrospection),
      d.truthy = true →
      resolve_fields neg ctx base [tags_layer t, description_layer d] =
        { base_resolved base with tags := t, description := d }) := by
  refine ⟨?_, ?_, ?_⟩
  · intro a rest neg ctx base dv hd ht hs
    simp [get_description, truthyOpt, hd, ht, hs]
  · intro a rest neg ctx base hd
    simp [get_description, truthyOpt, hd]
  · intro t d neg ctx base ht
    simp [resolve_fields, base_resolved, tags_layer, description_layer,
      get_operation_id, get_override_parameters, get_auth, get_request_serializer,
      get_response_serializers, get_description, is_deprecated, get_tags,
      truthyOpt, ht, is_in_scope]

/-- Claim C2 witness: the scenario at a concrete input — outer
`tags=["a"]` over inner `description="x"` over an undecorated base. -/
theorem c2_witness :
    PyVal.truthy (.str "x") = true ∧
    resolve_fields neg0 ctx0 base0
        [tags_layer (.list [.str "a"]), description_layer (.str "x")] =
      { base_resolved base0 with tags := .list [.str "a"], description := .str "x" } :=
  ⟨rfl, c2_field_independent_merge.2.2 (.list [.str "a"]) (.str "x") neg0 ctx0 base0 rfl⟩

/-- Claim C3: a layer whose scope does not match the context contributes
nothing to resolution — `get_operation` of the chain with that layer equals
`get_operation` without it (no leakage, even for fields nobody defines); and
the concrete scenario: layer A (`methods={"GET"}`, `tags=["read"]`) over
layer B (unrestricted, `description="legacy"`) resolved for a POST context
takes `tags` from base introspection and `description` from B. -/
theorem c3_out_of_scope_no_leakage :
    (∀ (a : ExtendArgs) (chain : List ExtendArgs) (neg : Nat → String) (ctx : Ctx)
        (base : BaseIntrospection),
      is_in_scope a.methods a.versions neg ctx = false →
      get_operation neg ctx base (a :: chain) = get_operation neg ctx base chain) ∧
    (∀ (neg : Nat → String) (r : Nat) (base : BaseIntrospection),
      resolve_fields neg ⟨"POST", r⟩ base [layer_a_read, layer_b_legacy] =
        { base_resolved base with description := .str "legacy" }) := by
  constructor
  · intro a chain neg ctx base h
    have h1 : get_operation_go neg ctx base (a :: chain) (a :: chain) =
        get_operation_go neg ctx base (a :: chain) chain := by
      simp [get_operation_go, h]
    have h2 : get_operation_go neg ctx base (a :: chain) chain =
        get_operation_go neg ctx base chain chain :=
      get_operation_go_congr neg ctx base (a :: chain) chain
        (resolve_fields_out_of_scope a chain neg ctx base h) chain
    exact h1.trans h2
  · intro neg r base
    rfl

/-- Claim C3 witness: the no-leakage equation applied at the concrete POST
scenario, with layer A out of scope. -/
theorem c3_witness :
    is_in_scope layer_a_read.methods layer_a_read.versions neg0 ⟨"POST", 0⟩ = false ∧
    get_operation neg0 ⟨"POST", 0⟩ base0 [layer_a_read, layer_b_legacy] =
      get_operation neg0 ⟨"POST", 0⟩ base0 [layer_b_legacy] :=
  ⟨rfl, c3_out_of_scope_no_leakage.1 layer_a_read [layer_b_legacy] neg0 ⟨"POST", 0⟩ base0 rfl⟩

/-- Claim C4: the scope predicate holds iff (the methods restriction is unset
or the context's method is a member) and (the versions restriction is unset
or the version the negotiation collaborator returns for this resolution's
request is a member); the version enters only as `neg ctx.request`, obtained
fresh at every evaluation. -/
theorem c4_scope_predicate_iff :
    ∀ (ms vs : Option (List String)) (neg : Nat → String) (ctx : Ctx),
      is_in_scope ms vs neg ctx = true ↔
        ((ms = none ∨ ∃ l, ms = some l ∧ ctx.method ∈ l) ∧
         (vs = none ∨ ∃ l, vs = some l ∧ neg ctx.request ∈ l)) := by
  intro ms vs neg ctx
  cases ms <;> cases vs <;> simp [is_in_scope]

/-- Claim C5: every `extend_schema` invocation attaches exactly one new
layer whose inner reference is the chain already attached at the site (the
empty chain, i.e. the default base schema, when none) — for all three
attachment shapes; and when two stacked layers both declare `tags` and both
are in scope, the most recently applied (outermost) layer wins. -/
theorem c5_extend_schema_stacks_one_layer :
    (∀ (args : ExtendArgs) (site : Site),
      site_chain (extend_schema args site) = args :: site_chain site) ∧
    (∀ (inner outer : ExtendArgs) (site : Site) (neg : Nat → String) (ctx : Ctx)
        (base : BaseIntrospection) (t_in t_out : PyVal),
      inner.tags = some t_in → outer.tags = some t_out →
      is_in_scope inner.methods inner.versions neg ctx = true →
      is_in_scope outer.methods outer.versions neg ctx = true →
      get_tags neg ctx base (site_chain (extend_schema outer (extend_schema inner site))) = t_out) := by
  refine ⟨extend_schema_chain, ?_⟩
  intro inner outer site neg ctx base t_in t_out _hi ho _hsi hso
  rw [extend_schema_chain, extend_schema_chain]
  simp [get_tags, ho, hso]

/-- Claim C5 witness: two stacked tags-declaring layers on a previously
undecorated action site; the outer (most recent) declaration wins. -/
theorem c5_witness :
    (tags_layer (.list [.str "old"])).tags = some (.list [.str "old"]) ∧
    (tags_layer (.list [.str "new"])).tags = some (.list [.str "new"]) ∧
    is_in_scope (tags_layer (.list [.str "old"])).methods
      (tags_layer (.list [.str "old"])).versions neg0 ctx0 = true ∧
    is_in_scope (tags_layer (.list [.str "new"])).methods
      (tags_layer (.list [.str "new"])).versions neg0 ctx0 = true ∧
    get_tags neg0 ctx0 base0
        (site_chain (extend_schema (tags_layer (.list [.str "new"]))
          (extend_schema (tags_layer (.list [.str "old"])) (.action none)))) =
      .list [.str "new"] :=
  ⟨rfl, rfl, rfl, rfl,
    c5_extend_schema_stacks_one_layer.2 (tags_layer (.list [.str "old"]))
      (tags_layer (.list [.str "new"])) (.action none) neg0 ctx0 base0
      (.list [.str "old"]) (.list [.str "new"]) rfl rfl rfl rfl⟩

/-- Claim C6: one `get_operation` call is deterministic and side-effect
free up to the `self.method` slot it itself overwrites first: the result is
independent of the schema instance's prior state, and an immediately
repeated resolution of the same (chain, context) returns a bit-for-bit
identical result and state; the layers (closure data) admit no mutation. -/
theorem c6_resolution_deterministic_pure :
    ∀ (neg : Nat → String) (base : BaseIntrospection) (chain : List ExtendArgs)
      (m : String) (r : Nat) (st₁ st₂ : InstState),
      (get_operation_run neg base chain m r st₁).1 =
        (get_operation_run neg base chain m r st₂).1 ∧
      get_operation_run neg base chain m r ((get_operation_run neg base chain m r st₁).2) =
        get_operation_run neg base chain m r st₁ :=
  fun _ _ _ _ _ _ _ => ⟨rfl, rfl⟩

/-- Claim C7: a declared empty `tags` override is meaningful — when the
outermost layer that declares `tags` at all and is in scope declares the
empty list, resolution yields the empty list instead of deferring — whereas
an absent (`None`) `tags` declaration defers to the inner chain. -/
theorem c7_empty_tags_meaningful :
    (∀ (pre rest : List ExtendArgs) (a : ExtendArgs) (neg : Nat → String)
        (ctx : Ctx) (base : BaseIntrospection),
      (∀ b ∈ pre, b.tags = none ∨ is_in_scope b.methods b.versions neg ctx = false) →
      a.tags = some (.list []) →
      is_in_scope a.methods a.versions neg ctx = true →
      get_tags neg ctx base (pre ++ a :: rest) = .list []) ∧
    (∀ (a : ExtendArgs) (rest : List ExtendArgs) (neg : Nat → String) (ctx : Ctx)
        (base : BaseIntrospection),
      a.tags = none →
      get_tags neg ctx base (a :: rest) = get_tags neg ctx base rest) := by
  constructor
  · intro pre rest a neg ctx base hpre ha hs
    induction pre with
    | nil => simp [get_tags, ha, hs]
    | cons b pre ih =>
      rcases hpre b (List.mem_cons_self b pre) with hb | hb <;>
        simp [get_tags, hb, ih fun c hc => hpre c (List.mem_cons_of_mem b hc)]
  · intro a rest neg ctx base ha
    simp [get_tags, ha]

/-- Claim C7 witness: a single in-scope layer declaring `tags=[]` over a
base whose discovered tags are nonempty resolves to the empty list. -/
theorem c7_witness :
    (∀ b ∈ ([] : List ExtendArgs),
      b.tags = none ∨ is_in_scope b.methods b.versions neg0 ctx0 = false) ∧
    (tags_layer (.list [])).tags = some (.list []) ∧
    is_in_scope (tags_layer (.list [])).methods (tags_layer (.list [])).versions neg0 ctx0 = true ∧
    get_tags neg0 ctx0 base0 ([] ++ tags_layer (.list []) :: []) = .list [] :=
  ⟨fun b hb => absurd hb (List.not_mem_nil b), rfl, rfl,
    c7_empty_tags_meaningful.1 [] [] (tags_layer (.list [])) neg0 ctx0 base0
      (fun b hb => absurd hb (List.not_mem_nil b)) rfl rfl⟩

/-- Claim C8, counterexample: declaring both a raw `operation` override and
a field-level `operation_id` override in one invocation is not rejected —
the decorator attaches the layer like any other (no DeclarationConflict
error exists in the source), and at resolution the raw override silently
takes precedence while `operation_id` is ignored. -/
theorem c8_counterexample :
    extend_schema conflict_args (.action none) = .action (some [conflict_args]) ∧
    conflict_args.operation_id = some (.str "custom_id") ∧
    get_operation neg0 ctx0 base0 [conflict_args] =
      .raw (.dict [("summary", .str "raw")]) :=
  ⟨rfl, rfl, rfl⟩

/-- Claim C8 (amended): declaring both a raw operation override and
field-level overrides in the same invocation is accepted without any error —
`extend_schema` performs no declaration-conflict validation and attaches the
layer unchanged — and at resolution an in-scope raw operation override
silently takes precedence, the field-level overrides on that layer never
being consulted. -/
theorem c8_amended_raw_override_silently_wins :
    (∀ (args : ExtendArgs) (site : Site),
      site_chain (extend_schema args site) = args :: site_chain site) ∧
    (∀ (args : ExtendArgs) (rest : List ExtendArgs) (neg : Nat → String)
        (ctx : Ctx) (base : BaseIntrospection) (op : PyVal),
      args.operation = some op → args.exclude = false →
      is_in_scope args.methods args.versions neg ctx = true →
      get_operation neg ctx base (args :: rest) = .raw op) := by
  refine ⟨extend_schema_chain, ?_⟩
  intro args rest neg ctx base op hop hex hs
  simp [get_operation, get_operation_go, hop, hex, hs]

/-- Claim C8 witness: the amended precedence at the conflicting invocation. -/
theorem c8_witness :
    conflict_args.operation = some (.dict [("summary", .str "raw")]) ∧
    conflict_args.exclude = false ∧
    is_in_scope conflict_args.methods conflict_args.versions neg0 ctx0 = true ∧
    get_operation neg0 ctx0 base0 [conflict_args] =
      .raw (.dict [("summary", .str "raw")]) :=
  ⟨rfl, rfl, rfl,
    c8_amended_raw_override_silently_wins.2 conflict_args [] neg0 ctx0 base0
      (.dict [("summary", .str "raw")]) rfl rfl rfl⟩

/-- Claim C9: the discriminator check succeeds iff every variant shape
contains the discriminator field; a failure names the label of an offending
variant; the cat/dog scenario fails naming "dog"; and in a generation pass
the failure is fatal only for that operation — other operations still
resolve. -/
theorem c9_discriminator_field_missing :
    (∀ p : PolymorphicProxySerializer,
      check_discriminator p = .ok () ↔
        ∀ s ∈ p.serializers, p.resource_type_field_name ∈ s.fields) ∧
    (∀ (p : PolymorphicProxySerializer) (e : DiscriminatorFieldMissing),
      check_discriminator p = .error e →
      ∃ s ∈ p.serializers, s.name = e.variant_label ∧
        p.resource_type_field_name ∉ s.fields) ∧
    check_discriminator catdog = .error ⟨"dog"⟩ ∧
    generation_pass [("op_pets", catdog), ("op_ok", okpoly)] =
      [("op_pets", .error ⟨"dog"⟩), ("op_ok", .ok ())] := by
  refine ⟨?_, ?_, rfl, rfl⟩
  · intro p
    unfold check_discriminator
    cases hf : p.serializers.find? (fun s => !(s.fields.contains p.resource_type_field_name)) with
    | none =>
      simp only [List.find?_eq_none, Bool.not_eq_true', Bool.not_eq_false] at hf
      simpa using fun s hs => by simpa [List.elem_iff] using hf s hs
    | some s =>
      have hmem := List.mem_of_find?_eq_some hf
      have hpred := List.find?_some hf
      simp only [Bool.not_eq_true', List.elem_iff] at hpred
      simp only [reduceCtorEq, false_iff, not_forall]
      exact ⟨s, hmem, by simpa using hpred⟩
  · intro p e he
    unfold check_discriminator at he
    cases hf : p.serializers.find? (fun s => !(s.fields.contains p.resource_type_field_name)) with
    | none => rw [hf] at he; exact absurd he (by simp)
    | some s =>
      rw [hf] at he
      have hmem := List.mem_of_find?_eq_some hf
      have hpred := List.find?_some hf
      simp only [Bool.not_eq_true', List.elem_iff] at hpred
      have hname : s.name = e.variant_label := by
        have := he
        simp only [Except.error.injEq] at this
        exact congrArg DiscriminatorFieldMissing.variant_label this
      exact ⟨s, hmem, hname, by simpa using hpred⟩

/-- Claim C9 witness: the failure-naming conjunct applied at the cat/dog
declaration. -/
theorem c9_witness :
    check_discriminator catdog = .error ⟨"dog"⟩ ∧
    ∃ s ∈ catdog.serializers, s.name = "dog" ∧
      catdog.resource_type_field_name ∉ s.fields :=
  ⟨c9_discriminator_field_missing.2.2.1,
    c9_discriminator_field_missing.2.1 catdog ⟨"dog"⟩ rfl⟩

/-- Claim C10: for every field the source guards by Python truthiness
(operation id, parameters, request, responses, auth, description,
deprecated) a falsy declared override defers to the inner chain exactly as
an absent one does, and a falsy `exclude`/absent `operation` let
`get_operation` pass the layer by — in particular `deprecated=False` can
never override an inner `deprecated=True`, and `description=""` or
`parameters=[]` never overrides anything. -/
theorem c10_falsy_overrides_defer :
    ∀ (a : ExtendArgs) (rest : List ExtendArgs) (neg : Nat → String) (ctx : Ctx)
      (base : BaseIntrospection) (full : List ExtendArgs),
      truthyOpt a.operation_id = false →
      truthyOpt a.parameters = false →
      truthyOpt a.request = false →
      truthyOpt a.responses = false →
      truthyOpt a.auth = false →
      truthyOpt a.description = false →
      truthyOpt a.deprecated = false →
      get_operation_id neg ctx base (a :: rest) = get_operation_id neg ctx base rest ∧
      get_override_parameters neg ctx base (a :: rest) = get_override_parameters neg ctx base rest ∧
      get_request_serializer neg ctx base (a :: rest) = get_request_serializer neg ctx base rest ∧
      get_response_serializers neg ctx base (a :: rest) = get_response_serializers neg ctx base rest ∧
      get_auth neg ctx base (a :: rest) = get_auth neg ctx base rest ∧
      get_description neg ctx base (a :: rest) = get_description neg ctx base rest ∧
      is_deprecated neg ctx base (a :: rest) = is_deprecated neg ctx base rest ∧
      (a.exclude = false → a.operation = none →
        get_operation_go neg ctx base full (a :: rest) =
          get_operation_go neg ctx base full rest) := by
  intro a rest neg ctx base full h1 h2 h3 h4 h5 h6 h7
  refine ⟨?_, ?_, ?_, ?_, ?_, ?_, ?_, ?_⟩
  · simp [get_operation_id, h1]
  · simp [get_override_parameters, h2]
  · simp [get_request_serializer, h3]
  · simp [get_response_serializers, h4]
  · simp [get_auth, h5]
  · simp [get_description, h6]
  · simp [is_deprecated, h7]
  · intro hex hop
    simp [get_operation_go, hex, hop]

/-- Claim C10 witness: a layer declaring every truthiness-guarded field with
a falsy value (and `exclude=False`) defers on all of them — shown against an
inner layer declaring `deprecated=True`. -/
theorem c10_witness :
    truthyOpt (falsy_layer.operation_id) = false ∧
    truthyOpt (falsy_layer.parameters) = false ∧
    truthyOpt (falsy_layer.request) = false ∧
    truthyOpt (falsy_layer.responses) = false ∧
    truthyOpt (falsy_layer.auth) = false ∧
    truthyOpt (falsy_layer.description) = false ∧
    truthyOpt (falsy_layer.deprecated) = false ∧
    is_deprecated neg0 ctx0 base0 (falsy_layer :: [deprecated_layer]) =
      is_deprecated neg0 ctx0 base0 [deprecated_layer] :=
  ⟨rfl, rfl, rfl, rfl, rfl, rfl, rfl,
    (c10_falsy_overrides_defer falsy_layer [deprecated_layer] neg0 ctx0 base0 []
      rfl rfl rfl rfl rfl rfl rfl).2.2.2.2.2.2.1⟩

end DrfSpectacular
